import Mathlib

/-!
Verification of the Bus-ticket booking application's booking store
(`backend/database.py`) and session query router (`backend/main.py`,
`query_smart`), via a shallow embedding.

Conventions of the embedding:
* Python strings are Lean `String`s; character-level operations work on
  `String.data` (`List Char`), matching Python's character-based slicing.
* The SQLite `bookings` table is a `List Booking` held in insertion order
  (`id INTEGER PRIMARY KEY AUTOINCREMENT` — later inserts later).
* Timestamps (`datetime.now().isoformat()`) are passed in as an opaque
  `now : String` parameter.
* The external Answer Engine (`get_answer`) is passed in as an opaque
  `ans : String` parameter; chat-history logging (`save_chat_message`) is a
  fire-and-forget side effect on a collaborator and is not modelled.
-/

namespace BusBooking

/-! ### Python string primitives used by the router -/

/-- Python `str.strip()`: remove leading and trailing whitespace
(modelled with `Char.isWhitespace`). -/
def pyStrip (s : String) : String :=
  ⟨((s.data.dropWhile Char.isWhitespace).reverse.dropWhile Char.isWhitespace).reverse⟩

/-- Python `str.lower()` (ASCII case folding, which covers the router's
keyword alphabet). -/
def pyLower (s : String) : String :=
  ⟨s.data.map Char.toLower⟩

/-- Python `pat in s` substring test, on character lists. -/
def listContains (pat : List Char) : List Char → Bool
  | [] => pat.isEmpty
  | c :: rest => pat.isPrefixOf (c :: rest) || listContains pat rest

/-- Python `pat in s` substring test on strings. -/
def containsSubstr (s pat : String) : Bool :=
  listContains pat.data s.data

/-- Number of occurrences of `pat` in `l` (number of starting positions,
including the position at the end of the list for the empty pattern). -/
def countOccs (pat : List Char) : List Char → Nat
  | [] => if pat.isEmpty then 1 else 0
  | c :: rest => (if pat.isPrefixOf (c :: rest) then 1 else 0) + countOccs pat rest

/-- The phone normalization of main.py lines 245–246 / 296–297:
`if phone.startswith("+88"): phone = phone[3:]`. -/
def stripPlus88 (p : String) : String :=
  if ("+88".data).isPrefixOf p.data then ⟨p.data.drop 3⟩ else p

/-- Python `x or d` for an optional string `x`: `d` when `x` is `None` or `""`
(both falsy), else the string itself. -/
def pyOrStr (x : Option String) (d : String) : String :=
  match x with
  | some s => if s = "" then d else s
  | none => d

/-- main.py line 289: `(request.phone or session.get("phone") or "")`. -/
def orPhone (hint stored : Option String) : String :=
  pyOrStr hint (pyOrStr stored "")

/-! ### Booking store (backend/database.py) -/

/-- A row of the `bookings` table (database.py `init_database`). -/
structure Booking where
  booking_id : String
  name : String
  phone : String
  bus_provider : String
  from_district : String
  to_district : String
  dropping_point : String
  travel_date : String
  num_passengers : Nat
  fare : Nat
  total_amount : Nat
  booking_date : String
  status : String
  cancelled_date : Option String := none
deriving Repr, DecidableEq

/-- The `bookings` table, rows in insertion order. -/
abbrev Store := List Booking

/-- database.py `get_bookings_by_phone`: `SELECT * FROM bookings WHERE phone = ?
ORDER BY created_at DESC` — the filtered rows, newest first (reverse of
insertion order). -/
def get_bookings_by_phone (store : Store) (phone : String) : List Booking :=
  (store.filter (fun b => b.phone == phone)).reverse

/-- Effect of database.py `cancel_booking`'s UPDATE on one row:
`SET status = 'cancelled', cancelled_date = ? WHERE booking_id = ? AND
status = 'active'`. -/
def cancelRow (booking_id now : String) (b : Booking) : Booking :=
  if b.booking_id == booking_id && b.status == "active" then
    { b with status := "cancelled", cancelled_date := some now }
  else b

/-- database.py `cancel_booking`: runs the UPDATE and returns
`rows_affected > 0`. -/
def cancel_booking (store : Store) (booking_id now : String) : Store × Bool :=
  (store.map (cancelRow booking_id now),
   store.any (fun b => b.booking_id == booking_id && b.status == "active"))

/-- database.py `delete_booking_permanently`: returns `False` when no row has
this id, otherwise removes the row (the archival copy into
`deleted_bookings` does not affect the `bookings` table and is elided). -/
def delete_booking_permanently (store : Store) (booking_id : String) : Store × Bool :=
  if store.any (fun b => b.booking_id == booking_id) then
    (store.filter (fun b => !(b.booking_id == booking_id)), true)
  else (store, false)

/-- Python `f"{n:05d}"`: decimal digits of `n`, left-padded with zeros to
width 5. -/
def pad5 (n : Nat) : String :=
  ⟨List.replicate (5 - (Nat.toDigits 10 n).length) '0' ++ Nat.toDigits 10 n⟩

/-- database.py `generate_booking_id`: `SELECT COUNT(*) FROM bookings`, then
`f"BK{count + 1:05d}"`. -/
def generate_booking_id (store : Store) : String :=
  "BK" ++ pad5 (store.length + 1)

/-- main.py `create_booking_endpoint` (route/fare validation elided — it does
not touch the store): builds the record with `generate_booking_id()` and
inserts it. -/
def create_booking_endpoint (store : Store) (name phone provider fromD toD dp date : String)
    (n fare : Nat) (now : String) : Store :=
  store ++ [{ booking_id := generate_booking_id store, name := name, phone := phone,
              bus_provider := provider, from_district := fromD, to_district := toD,
              dropping_point := dp, travel_date := date, num_passengers := n,
              fare := fare, total_amount := fare * n, booking_date := now,
              status := "active", cancelled_date := none }]

/-- The Booking-Store operations a client can run against the table. -/
inductive StoreOp where
  | create (name phone provider fromD toD dp date : String) (n fare : Nat) (now : String)
  | cancel (booking_id now : String)
  | delete (booking_id : String)

/-- Apply one store operation. -/
def applyOp (store : Store) : StoreOp → Store
  | .create name phone provider fromD toD dp date n fare now =>
      create_booking_endpoint store name phone provider fromD toD dp date n fare now
  | .cancel booking_id now => (cancel_booking store booking_id now).1
  | .delete booking_id => (delete_booking_permanently store booking_id).1

/-- Run a sequence of store operations from the empty table. -/
def runOps (ops : List StoreOp) : Store :=
  ops.foldl applyOp []

/-! ### Session query router (backend/main.py, `query_smart`) -/

/-- Per-session router state (main.py line 98 and lines 229–235). -/
structure Session where
  awaiting_booking_id : Bool
  awaiting_phone_for_cancel : Bool
  pending_bookings : List Booking
  phone : Option String
deriving Repr, DecidableEq

/-- The session created on a session id's first query (main.py lines 230–235). -/
def initSession : Session :=
  { awaiting_booking_id := false, awaiting_phone_for_cancel := false,
    pending_bookings := [], phone := none }

/-- Result of one `query_smart` turn: the updated session, the updated
bookings table, and the reply text. -/
structure StepResult where
  session : Session
  store : Store
  message : String
deriving Repr, DecidableEq

/-- Reply of main.py lines 260 / 280 / 311. -/
def successMsg (booking_id : String) : String :=
  "✅ Booking " ++ booking_id ++ " has been cancelled successfully."

/-- Reply of main.py lines 253 / 304. -/
def noActiveMsg (phone : String) : String :=
  "ℹ️ No active bookings found for phone number " ++ phone

/-- Reply of main.py line 284. -/
def notFoundMsg (booking_id : String) : String :=
  "❌ Booking ID " ++ booking_id ++ " not found. Please check again."

/-- Reply of main.py line 292. -/
def askPhoneMsg : String :=
  "📱 To cancel your booking, please provide your phone number."

/-- One enumeration line of main.py lines 268 / 319. -/
def enumLine (b : Booking) : String :=
  b.from_district ++ " → " ++ b.to_district ++ " on " ++ b.travel_date ++
    " (ID: " ++ b.booking_id ++ ")\n"

/-- The disambiguation reply built at main.py lines 266–269 / 317–320. -/
def multipleMsg (bs : List Booking) : String :=
  bs.foldl (fun acc b => acc ++ enumLine b) "You have multiple active bookings:\n" ++
    "\nPlease provide the Booking ID you want to cancel."

/-- main.py lines 249–250 / 300–301: bookings for the phone, filtered to
`status == 'active'`. -/
def activeFor (store : Store) (phone : String) : List Booking :=
  (get_bookings_by_phone store phone).filter (fun b => b.status == "active")

/-- The cancel-resolution block, duplicated verbatim at main.py lines 249–271
(entered from the AWAITING_PHONE branch) and lines 300–322 (entered from the
keyword-trigger branch): zero active bookings → informational reply; exactly
one → cancel it (`active_bookings[0]`); several → offer them for
disambiguation. -/
def resolveCancel (sess : Session) (store : Store) (phone now : String) : StepResult :=
  match activeFor store phone with
  | [] => ⟨sess, store, noActiveMsg phone⟩
  | [b] => ⟨sess, (cancel_booking store b.booking_id now).1, successMsg b.booking_id⟩
  | b1 :: b2 :: rest =>
      ⟨{ sess with awaiting_booking_id := true, pending_bookings := b1 :: b2 :: rest },
       store, multipleMsg (b1 :: b2 :: rest)⟩

/-- main.py `query_smart` (lines 226–327), acting on an already-loaded session.
`query` is `request.query`, `phoneHint` is `request.phone`, `ans` is the
Answer Engine's reply `get_answer(request.query)` for the fallback branch. -/
def query_smart (sess : Session) (store : Store) (query : String)
    (phoneHint : Option String) (now ans : String) : StepResult :=
  if sess.awaiting_phone_for_cancel then
    resolveCancel
      { sess with phone := some (stripPlus88 (pyStrip query)),
                  awaiting_phone_for_cancel := false }
      store (stripPlus88 (pyStrip query)) now
  else if sess.awaiting_booking_id then
    match sess.pending_bookings.find? (fun b => b.booking_id == pyStrip query) with
    | some _ =>
        ⟨{ sess with awaiting_booking_id := false, pending_bookings := [] },
         (cancel_booking store (pyStrip query) now).1, successMsg (pyStrip query)⟩
    | none => ⟨sess, store, notFoundMsg (pyStrip query)⟩
  else if containsSubstr (pyLower (pyStrip query)) "cancel"
       || containsSubstr (pyLower (pyStrip query)) "cancellation" then
    if pyStrip (orPhone phoneHint sess.phone) = "" then
      ⟨{ sess with awaiting_phone_for_cancel := true }, store, askPhoneMsg⟩
    else
      resolveCancel
        { sess with phone := some (stripPlus88 (pyStrip (orPhone phoneHint sess.phone))) }
        store (stripPlus88 (pyStrip (orPhone phoneHint sess.phone))) now
  else ⟨sess, store, ans⟩

/-- Session states reachable from the initial state by any sequence of
`query_smart` calls. The store, query, phone hint, clock and Answer-Engine
reply are arbitrary at every step (other sessions and direct API calls may
change the store between turns). -/
inductive ReachableSession : Session → Prop where
  | init : ReachableSession initSession
  | step (s : Session) (store : Store) (q : String) (ph : Option String)
      (now ans : String) : ReachableSession s →
      ReachableSession (query_smart s store q ph now ans).session

/-! ### Helper lemmas -/

theorem strData_append (a b : String) : (a ++ b).data = a.data ++ b.data := rfl

theorem isPrefixOf_append (l t : List Char) : l.isPrefixOf (l ++ t) = true := by
  induction l with
  | nil => simp [List.isPrefixOf]
  | cons c cs ih => simp [List.isPrefixOf, ih]

theorem countOccs_nil_pat (l : List Char) : 1 ≤ countOccs [] l := by
  cases l <;> simp [countOccs, List.isPrefixOf]

theorem countOccs_pos_of_append (pat s t : List Char) : 1 ≤ countOccs pat (s ++ pat ++ t) := by
  induction s with
  | nil =>
      cases hpat : pat with
      | nil => simpa using countOccs_nil_pat t
      | cons c ps =>
          have hpre : (c :: ps).isPrefixOf ((c :: ps) ++ t) = true := isPrefixOf_append _ _
          simp [countOccs, hpre]
  | cons c s ih =>
      calc 1 ≤ countOccs pat (s ++ pat ++ t) := ih
        _ ≤ (if pat.isPrefixOf (c :: (s ++ pat ++ t)) then 1 else 0) +
              countOccs pat (s ++ pat ++ t) := Nat.le_add_left _ _
        _ = countOccs pat (c :: (s ++ pat ++ t)) := by rw [countOccs]
        _ = countOccs pat ((c :: s) ++ pat ++ t) := by simp

theorem countOccs_pos_of_infix (pat l : List Char) (h : pat <:+: l) :
    1 ≤ countOccs pat l := by
  obtain ⟨s, t, hst⟩ := h
  rw [← hst]
  exact countOccs_pos_of_append pat s t

theorem infix_foldl_enum (bs : List Booking) (init : String) (p : List Char)
    (h : p <:+: init.data) :
    p <:+: (bs.foldl (fun acc b => acc ++ enumLine b) init).data := by
  induction bs generalizing init with
  | nil => exact h
  | cons b bs ih =>
      apply ih
      rw [strData_append]
      exact h.trans (List.prefix_append _ _).isInfix

theorem enumLine_infix_foldl (bs : List Booking) (b : Booking) (hb : b ∈ bs) (init : String) :
    (enumLine b).data <:+: (bs.foldl (fun acc x => acc ++ enumLine x) init).data := by
  induction bs generalizing init with
  | nil => cases hb
  | cons x xs ih =>
      cases hb with
      | head =>
          rw [List.foldl_cons]
          apply infix_foldl_enum
          rw [strData_append]
          exact (List.suffix_append _ _).isInfix
      | tail _ hb2 => exact ih hb2 _

theorem id_infix_enumLine (b : Booking) : b.booking_id.data <:+: (enumLine b).data := by
  refine ⟨(b.from_district ++ " → " ++ b.to_district ++ " on " ++ b.travel_date ++
            " (ID: ").data, (")\n" : String).data, ?_⟩
  simp only [enumLine, strData_append, List.append_assoc]

theorem id_occurs_multipleMsg (bs : List Booking) (b : Booking) (hb : b ∈ bs) :
    1 ≤ countOccs b.booking_id.data (multipleMsg bs).data := by
  apply countOccs_pos_of_infix
  rw [multipleMsg, strData_append]
  exact (((id_infix_enumLine b).trans (enumLine_infix_foldl bs b hb _)).trans
    (List.prefix_append _ _).isInfix)

theorem activeFor_status (store : Store) (phone : String) :
    ∀ b ∈ activeFor store phone, b.status = "active" := by
  intro b hb
  have := (List.mem_filter.mp hb).2
  simpa using this

theorem activeFor_mem_store (store : Store) (phone : String) :
    ∀ b ∈ activeFor store phone, b ∈ store := by
  intro b hb
  have h1 := (List.mem_filter.mp hb).1
  rw [get_bookings_by_phone, List.mem_reverse] at h1
  exact (List.mem_filter.mp h1).1

theorem activeFor_phone (store : Store) (phone : String) :
    ∀ b ∈ activeFor store phone, b.phone = phone := by
  intro b hb
  have h1 := (List.mem_filter.mp hb).1
  rw [get_bookings_by_phone, List.mem_reverse] at h1
  simpa using (List.mem_filter.mp h1).2

theorem resolveCancel_empty (sess : Session) (store : Store) (phone now : String)
    (h : activeFor store phone = []) :
    resolveCancel sess store phone now = ⟨sess, store, noActiveMsg phone⟩ := by
  rw [resolveCancel, h]

theorem resolveCancel_single (sess : Session) (store : Store) (phone now : String)
    (b : Booking) (h : activeFor store phone = [b]) :
    resolveCancel sess store phone now =
      ⟨sess, (cancel_booking store b.booking_id now).1, successMsg b.booking_id⟩ := by
  rw [resolveCancel, h]

theorem resolveCancel_multiple (sess : Session) (store : Store) (phone now : String)
    (b1 b2 : Booking) (rest : List Booking)
    (h : activeFor store phone = b1 :: b2 :: rest) :
    resolveCancel sess store phone now =
      ⟨{ sess with awaiting_booking_id := true, pending_bookings := b1 :: b2 :: rest },
       store, multipleMsg (b1 :: b2 :: rest)⟩ := by
  rw [resolveCancel, h]

theorem resolveCancel_preserves (sess : Session) (store : Store) (phone now : String) :
    (resolveCancel sess store phone now).session.awaiting_phone_for_cancel =
      sess.awaiting_phone_for_cancel ∧
    (resolveCancel sess store phone now).session.phone = sess.phone := by
  rw [resolveCancel]
  cases activeFor store phone with
  | nil => exact ⟨rfl, rfl⟩
  | cons b tl => cases tl with
    | nil => exact ⟨rfl, rfl⟩
    | cons b2 rest => exact ⟨rfl, rfl⟩

/-- The session-state invariants of the router, preserved by every
`query_smart` turn: flag mutual exclusion, and the link between
`awaiting_booking_id` and `pending_bookings`. -/
def SessionInv (s : Session) : Prop :=
  (s.awaiting_booking_id = false ∨ s.awaiting_phone_for_cancel = false) ∧
  (s.pending_bookings ≠ [] ↔ s.awaiting_booking_id = true) ∧
  (s.pending_bookings ≠ [] → 2 ≤ s.pending_bookings.length) ∧
  (∀ b ∈ s.pending_bookings, b.status = "active")

theorem sessionInv_resolveCancel (sess : Session) (store : Store) (phone now : String)
    (hb : sess.awaiting_booking_id = false)
    (hph : sess.awaiting_phone_for_cancel = false)
    (hp : sess.pending_bookings = []) :
    SessionInv (resolveCancel sess store phone now).session := by
  cases hact : activeFor store phone with
  | nil =>
      rw [resolveCancel_empty sess store phone now hact]
      exact ⟨Or.inl hb, by simp [hp, hb], by simp [hp], by simp [hp]⟩
  | cons b1 tl => cases tl with
    | nil =>
        rw [resolveCancel_single sess store phone now b1 hact]
        exact ⟨Or.inl hb, by simp [hp, hb], by simp [hp], by simp [hp]⟩
    | cons b2 rest =>
        rw [resolveCancel_multiple sess store phone now b1 b2 rest hact]
        refine ⟨Or.inr hph, by simp, by simp [Nat.succ_le_succ, Nat.le_add_left], ?_⟩
        intro b hbmem
        exact activeFor_status store phone b (hact ▸ hbmem)

theorem sessionInv_step (sess : Session) (store : Store) (q : String) (ph : Option String)
    (now ans : String) (h : SessionInv sess) :
    SessionInv (query_smart sess store q ph now ans).session := by
  obtain ⟨hmux, hiff, hlen, hact⟩ := h
  by_cases hph : sess.awaiting_phone_for_cancel = true
  · have hb : sess.awaiting_booking_id = false := by
      rcases hmux with h1 | h1
      · exact h1
      · rw [h1] at hph; exact absurd hph (by simp)
    have hp : sess.pending_bookings = [] := by
      by_contra hne
      rw [hiff.mp hne] at hb; exact absurd hb (by simp)
    rw [query_smart, if_pos hph]
    exact sessionInv_resolveCancel _ _ _ _ hb rfl hp
  · have hphF : sess.awaiting_phone_for_cancel = false := by simpa using hph
    rw [query_smart, if_neg hph]
    by_cases hb : sess.awaiting_booking_id = true
    · rw [if_pos hb]
      cases hfind : sess.pending_bookings.find? (fun b => b.booking_id == pyStrip q) with
      | some b =>
          simp only [hfind]
          exact ⟨Or.inl rfl, by simp, by simp, by simp⟩
      | none =>
          simp only [hfind]
          exact ⟨hmux, hiff, hlen, hact⟩
    · have hbF : sess.awaiting_booking_id = false := by simpa using hb
      have hp : sess.pending_bookings = [] := by
        by_contra hne
        rw [hiff.mp hne] at hbF; exact absurd hbF (by simp)
      rw [if_neg hb]
      by_cases hk : (containsSubstr (pyLower (pyStrip q)) "cancel"
          || containsSubstr (pyLower (pyStrip q)) "cancellation") = true
      · rw [if_pos hk]
        by_cases hem : pyStrip (orPhone ph sess.phone) = ""
        · rw [if_pos hem]
          exact ⟨Or.inl hbF, by simp [hp, hbF], by simp [hp], by simp [hp]⟩
        · rw [if_neg hem]
          exact sessionInv_resolveCancel _ _ _ _ hbF hphF hp
      · rw [if_neg hk]
        exact ⟨hmux, hiff, hlen, hact⟩

theorem sessionInv_reachable (s : Session) (h : ReachableSession s) : SessionInv s := by
  induction h with
  | init =>
      exact ⟨Or.inl rfl, by simp [initSession], by simp [initSession], by simp [initSession]⟩
  | step s store q ph now ans _ ih => exact sessionInv_step s store q ph now ans ih

theorem cancelRow_match (booking_id now : String) (b : Booking)
    (h1 : b.booking_id = booking_id) (h2 : b.status = "active") :
    cancelRow booking_id now b =
      { b with status := "cancelled", cancelled_date := some now } := by
  simp [cancelRow, h1, h2]

theorem cancelRow_noop (booking_id now : String) (b : Booking)
    (h : ¬(b.booking_id = booking_id ∧ b.status = "active")) :
    cancelRow booking_id now b = b := by
  have hcond : ¬((b.booking_id == booking_id && b.status == "active") = true) := by
    simpa [Bool.and_eq_true, beq_iff_eq] using h
  rw [cancelRow, if_neg hcond]

/-! ### Claims -/

/-- A sequence of Booking-Store operations exhibiting the identifier
collision: two bookings, then a permanent delete of the first. -/
def c1Ops : List StoreOp :=
  [.create "Alice" "01711000000" "Hanif" "Dhaka" "Khulna" "Gate 1" "2024-02-01" 1 500 "t1",
   .create "Bob" "01722000000" "Ena" "Dhaka" "Bogra" "Gate 2" "2024-02-02" 1 600 "t2",
   .delete "BK00001"]

/-- C1 (code bug): booking identifiers are claimed unique and monotonically
assigned, and `generate_booking_id`'s own docstring says "Generate unique
booking ID" (the schema even declares `booking_id TEXT UNIQUE`), but the id
is derived from `COUNT(*) + 1`. After create, create, permanent-delete of
BK00001, the store still holds a booking BK00002 yet `generate_booking_id`
returns "BK00002" again — neither distinct from every stored identifier nor
later than every previously issued one. -/
theorem generate_booking_id_reuses_deleted_id :
    generate_booking_id (runOps c1Ops) = "BK00002" ∧
    "BK00002" ∈ (runOps c1Ops).map Booking.booking_id := by
  decide

/-- C2: in every session state reachable from the initial state by any
sequence of `query_smart` calls, at most one of `awaiting_booking_id` and
`awaiting_phone_for_cancel` is true. -/
theorem reachable_flags_mutually_exclusive (s : Session) (h : ReachableSession s) :
    ¬(s.awaiting_booking_id = true ∧ s.awaiting_phone_for_cancel = true) := by
  intro hcon
  rcases (sessionInv_reachable s h).1 with h3 | h3
  · rw [hcon.1] at h3; exact absurd h3 (by simp)
  · rw [hcon.2] at h3; exact absurd h3 (by simp)

theorem reachable_flags_mutually_exclusive_witness :
    ¬((query_smart initSession [] "cancel" none "t" "a").session.awaiting_booking_id = true ∧
      (query_smart initSession [] "cancel" none "t" "a").session.awaiting_phone_for_cancel = true) :=
  reachable_flags_mutually_exclusive _
    (ReachableSession.step initSession [] "cancel" none "t" "a" ReachableSession.init)

/-- An active booking used as concrete test data. -/
def wB1 : Booking :=
  { booking_id := "BK00001", name := "Alice", phone := "01711000000",
    bus_provider := "Hanif", from_district := "Dhaka", to_district := "Khulna",
    dropping_point := "Gate 1", travel_date := "2024-02-01", num_passengers := 1,
    fare := 500, total_amount := 500, booking_date := "2024-01-01",
    status := "active", cancelled_date := none }

/-- A second active booking for the same phone. -/
def wB2 : Booking :=
  { wB1 with booking_id := "BK00002", to_district := "Bogra",
             travel_date := "2024-02-02" }

/-- A store with two active bookings for phone 01711000000. -/
def wStore : Store := [wB1, wB2]

/-- C10: in every reachable session state, `pending_bookings` is non-empty
iff `awaiting_booking_id` is true; a non-empty `pending_bookings` has at
least two entries; and every pending entry is a record whose status was
`active` when it was offered (the session stores snapshots, so the snapshot
status is `active`). -/
theorem reachable_pending_bookings_link (s : Session) (h : ReachableSession s) :
    (s.pending_bookings ≠ [] ↔ s.awaiting_booking_id = true) ∧
    (s.pending_bookings ≠ [] → 2 ≤ s.pending_bookings.length) ∧
    (∀ b ∈ s.pending_bookings, b.status = "active") := by
  obtain ⟨_, h2, h3, h4⟩ := sessionInv_reachable s h
  exact ⟨h2, h3, h4⟩

theorem reachable_pending_bookings_link_witness :
    (((query_smart initSession wStore "cancel" (some "01711000000") "t" "a").session.pending_bookings ≠ [] ↔
      (query_smart initSession wStore "cancel" (some "01711000000") "t" "a").session.awaiting_booking_id = true) ∧
    ((query_smart initSession wStore "cancel" (some "01711000000") "t" "a").session.pending_bookings ≠ [] →
      2 ≤ (query_smart initSession wStore "cancel" (some "01711000000") "t" "a").session.pending_bookings.length) ∧
    (∀ b ∈ (query_smart initSession wStore "cancel" (some "01711000000") "t" "a").session.pending_bookings,
      b.status = "active")) :=
  reachable_pending_bookings_link _
    (ReachableSession.step initSession wStore "cancel" (some "01711000000") "t" "a"
      ReachableSession.init)

/-- C9: the phone normalization identifies prefixed and unprefixed forms:
"+8801711000000" and "01711000000" normalize to the same value, and for
every string p not itself starting with "+88", normalizing "+88" ++ p
yields p and normalizing p yields p. -/
theorem phone_normalization_strips_plus88 (p : String)
    (h : ("+88".data).isPrefixOf p.data = false) :
    stripPlus88 "+8801711000000" = stripPlus88 "01711000000" ∧
    stripPlus88 ("+88" ++ p) = p ∧
    stripPlus88 p = p := by
  refine ⟨by decide, ?_, ?_⟩
  · have hpre : ("+88".data).isPrefixOf (("+88" ++ p).data) = true := by
      rw [strData_append]; exact isPrefixOf_append _ _
    rw [stripPlus88, hpre]
    rfl
  · rw [stripPlus88, h]
    rfl

theorem phone_normalization_strips_plus88_witness :
    ("+88".data).isPrefixOf ("01711000000".data) = false ∧
    (stripPlus88 "+8801711000000" = stripPlus88 "01711000000" ∧
     stripPlus88 ("+88" ++ "01711000000") = "01711000000" ∧
     stripPlus88 "01711000000" = "01711000000") :=
  ⟨by decide, phone_normalization_strips_plus88 "01711000000" (by decide)⟩

/-- C8: `cancel_booking` returns true iff the store holds a booking with the
given identifier in status `active`; the UPDATE turns exactly the matching
`active` rows into `cancelled` with the cancellation timestamp set and all
their other fields kept, leaves every non-matching row unchanged (so no
transition other than active → cancelled ever occurs), and on a false
return the store is entirely unchanged. -/
theorem cancel_booking_spec (store : Store) (booking_id now : String) :
    ((cancel_booking store booking_id now).2 = true ↔
      ∃ b ∈ store, b.booking_id = booking_id ∧ b.status = "active") ∧
    ((cancel_booking store booking_id now).1 = store.map (cancelRow booking_id now)) ∧
    (∀ b : Booking, b.booking_id = booking_id → b.status = "active" →
      cancelRow booking_id now b =
        { b with status := "cancelled", cancelled_date := some now }) ∧
    (∀ b : Booking, ¬(b.booking_id = booking_id ∧ b.status = "active") →
      cancelRow booking_id now b = b) ∧
    ((cancel_booking store booking_id now).2 = false →
      (cancel_booking store booking_id now).1 = store) := by
  refine ⟨?_, rfl, ?_, ?_, ?_⟩
  · rw [cancel_booking]
    simp [List.any_eq_true, Bool.and_eq_true, beq_iff_eq]
  · intro b h1 h2
    exact cancelRow_match booking_id now b h1 h2
  · intro b h
    exact cancelRow_noop booking_id now b h
  · intro hfalse
    have hall : ∀ b ∈ store, cancelRow booking_id now b = b := by
      intro b hbmem
      apply cancelRow_noop
      intro hcon
      have : (cancel_booking store booking_id now).2 = true := by
        rw [cancel_booking]
        simp only [List.any_eq_true, Bool.and_eq_true, beq_iff_eq]
        exact ⟨b, hbmem, hcon.1, hcon.2⟩
      rw [this] at hfalse
      exact absurd hfalse (by simp)
    calc (cancel_booking store booking_id now).1
        = store.map (cancelRow booking_id now) := rfl
      _ = store := by
          rw [List.map_congr_left hall]
          exact List.map_id store

theorem cancel_booking_spec_witness :
    (cancel_booking wStore "BK00001" "t0").2 = true ∧
    (cancel_booking wStore "BK00009" "t0").2 = false ∧
    (cancel_booking wStore "BK00009" "t0").1 = wStore :=
  ⟨(cancel_booking_spec wStore "BK00001" "t0").1.mpr (by decide),
   by decide,
   (cancel_booking_spec wStore "BK00009" "t0").2.2.2.2 (by decide)⟩

/-- C3: in state AWAITING_PHONE the router treats the entire (stripped) query
text as a phone number whatever it contains, normalizes it by stripping a
leading "+88", stores it as the session phone, clears
`awaiting_phone_for_cancel` before resolving, and runs cancel-resolution
with that phone. -/
theorem awaiting_phone_query_treated_as_phone (sess : Session) (store : Store)
    (q : String) (ph : Option String) (now ans : String)
    (h : sess.awaiting_phone_for_cancel = true) :
    query_smart sess store q ph now ans =
      resolveCancel
        { sess with phone := some (stripPlus88 (pyStrip q)),
                    awaiting_phone_for_cancel := false }
        store (stripPlus88 (pyStrip q)) now ∧
    (query_smart sess store q ph now ans).session.phone =
      some (stripPlus88 (pyStrip q)) ∧
    (query_smart sess store q ph now ans).session.awaiting_phone_for_cancel = false := by
  have heq : query_smart sess store q ph now ans =
      resolveCancel
        { sess with phone := some (stripPlus88 (pyStrip q)),
                    awaiting_phone_for_cancel := false }
        store (stripPlus88 (pyStrip q)) now := by
    rw [query_smart, if_pos h]
  refine ⟨heq, ?_, ?_⟩
  · rw [heq, (resolveCancel_preserves _ _ _ _).2]
  · rw [heq, (resolveCancel_preserves _ _ _ _).1]

theorem awaiting_phone_query_treated_as_phone_witness :
    query_smart { initSession with awaiting_phone_for_cancel := true } wStore
        "cancel +8801711000000" none "t" "a" =
      resolveCancel
        { { initSession with awaiting_phone_for_cancel := true } with
            phone := some (stripPlus88 (pyStrip "cancel +8801711000000")),
            awaiting_phone_for_cancel := false }
        wStore (stripPlus88 (pyStrip "cancel +8801711000000")) "t" ∧
    (query_smart { initSession with awaiting_phone_for_cancel := true } wStore
        "cancel +8801711000000" none "t" "a").session.phone =
      some (stripPlus88 (pyStrip "cancel +8801711000000")) ∧
    (query_smart { initSession with awaiting_phone_for_cancel := true } wStore
        "cancel +8801711000000" none "t" "a").session.awaiting_phone_for_cancel = false :=
  awaiting_phone_query_treated_as_phone
    { initSession with awaiting_phone_for_cancel := true } wStore
    "cancel +8801711000000" none "t" "a" rfl

/-- C4: in state AWAITING_BOOKING_CHOICE, an exact match of the (stripped)
query against a pending booking's identifier cancels it, clears
`pending_bookings`, returns to IDLE and confirms naming the identifier —
after which no booking with that identifier is left `active`; with no match
the session is returned entirely unchanged with a not-found reply. -/
theorem awaiting_booking_choice_exact_match (sess : Session) (store : Store)
    (q : String) (ph : Option String) (now ans : String)
    (hph : sess.awaiting_phone_for_cancel = false)
    (hb : sess.awaiting_booking_id = true) :
    ((∃ b ∈ sess.pending_bookings, b.booking_id = pyStrip q) →
      query_smart sess store q ph now ans =
        ⟨{ sess with awaiting_booking_id := false, pending_bookings := [] },
         (cancel_booking store (pyStrip q) now).1, successMsg (pyStrip q)⟩ ∧
      (∀ b ∈ (query_smart sess store q ph now ans).store,
        b.booking_id = pyStrip q → b.status ≠ "active")) ∧
    ((∀ b ∈ sess.pending_bookings, b.booking_id ≠ pyStrip q) →
      query_smart sess store q ph now ans = ⟨sess, store, notFoundMsg (pyStrip q)⟩) := by
  constructor
  · rintro ⟨b, hbmem, hbid⟩
    cases hfind : sess.pending_bookings.find? (fun x => x.booking_id == pyStrip q) with
    | none =>
        exfalso
        have := List.find?_eq_none.mp hfind b hbmem
        simp [hbid] at this
    | some b0 =>
        have heq : query_smart sess store q ph now ans =
            ⟨{ sess with awaiting_booking_id := false, pending_bookings := [] },
             (cancel_booking store (pyStrip q) now).1, successMsg (pyStrip q)⟩ := by
          rw [query_smart, if_neg (by simp [hph]), if_pos hb, hfind]
        refine ⟨heq, ?_⟩
        intro b2 hb2 hid
        rw [heq] at hb2
        obtain ⟨b3, hb3, rfl⟩ := List.mem_map.mp hb2
        by_cases hc : b3.booking_id = pyStrip q ∧ b3.status = "active"
        · rw [cancelRow_match _ _ _ hc.1 hc.2]
          simp
        · rw [cancelRow_noop _ _ _ hc] at hid ⊢
          intro hact
          exact hc ⟨hid, hact⟩
  · intro hall
    have hfind : sess.pending_bookings.find? (fun x => x.booking_id == pyStrip q) = none := by
      rw [List.find?_eq_none]
      intro x hx
      simp only [beq_iff_eq]
      exact hall x hx
    rw [query_smart, if_neg (by simp [hph]), if_pos hb, hfind]

/-- The session used to exercise the AWAITING_BOOKING_CHOICE branch. -/
def c4Session : Session :=
  { awaiting_booking_id := true, awaiting_phone_for_cancel := false,
    pending_bookings := [wB1, wB2], phone := some "01711000000" }

theorem awaiting_booking_choice_exact_match_witness :
    (query_smart c4Session wStore "BK00001" none "t" "a" =
      ⟨{ c4Session with awaiting_booking_id := false, pending_bookings := [] },
       (cancel_booking wStore (pyStrip "BK00001") "t").1, successMsg (pyStrip "BK00001")⟩ ∧
     (∀ b ∈ (query_smart c4Session wStore "BK00001" none "t" "a").store,
        b.booking_id = pyStrip "BK00001" → b.status ≠ "active")) ∧
    query_smart c4Session wStore "BK00009" none "t" "a" =
      ⟨c4Session, wStore, notFoundMsg (pyStrip "BK00009")⟩ :=
  ⟨(awaiting_booking_choice_exact_match c4Session wStore "BK00001" none "t" "a" rfl rfl).1
      (by decide),
   (awaiting_booking_choice_exact_match c4Session wStore "BK00009" none "t" "a" rfl rfl).2
      (by decide)⟩

/-- C5: in IDLE, a query containing a cancellation keyword with no phone
available (neither hint nor stored) moves the session to AWAITING_PHONE,
replies asking for a phone number, and touches neither the store nor
`pending_bookings`. -/
theorem cancel_keyword_without_phone_asks_phone (sess : Session) (store : Store)
    (q : String) (ph : Option String) (now ans : String)
    (hph : sess.awaiting_phone_for_cancel = false)
    (hb : sess.awaiting_booking_id = false)
    (hk : (containsSubstr (pyLower (pyStrip q)) "cancel"
           || containsSubstr (pyLower (pyStrip q)) "cancellation") = true)
    (hempty : pyStrip (orPhone ph sess.phone) = "") :
    query_smart sess store q ph now ans =
      ⟨{ sess with awaiting_phone_for_cancel := true }, store, askPhoneMsg⟩ ∧
    (query_smart sess store q ph now ans).session.pending_bookings =
      sess.pending_bookings := by
  have heq : query_smart sess store q ph now ans =
      ⟨{ sess with awaiting_phone_for_cancel := true }, store, askPhoneMsg⟩ := by
    rw [query_smart, if_neg (by simp [hph]), if_neg (by simp [hb]), if_pos hk,
        if_pos hempty]
  exact ⟨heq, by rw [heq]⟩

theorem cancel_keyword_without_phone_asks_phone_witness :
    query_smart initSession wStore "I want to cancel my ticket" none "t" "a" =
      ⟨{ initSession with awaiting_phone_for_cancel := true }, wStore, askPhoneMsg⟩ ∧
    (query_smart initSession wStore "I want to cancel my ticket" none "t" "a").session.pending_bookings =
      initSession.pending_bookings :=
  cancel_keyword_without_phone_asks_phone initSession wStore
    "I want to cancel my ticket" none "t" "a" rfl rfl (by decide) (by decide)

/-- An active booking whose identifier is a prefix of another identifier. -/
def cxB1 : Booking :=
  { booking_id := "BK1", name := "Alice", phone := "01711000000",
    bus_provider := "Hanif", from_district := "Dhaka", to_district := "Khulna",
    dropping_point := "Gate 1", travel_date := "2024-02-01", num_passengers := 1,
    fare := 500, total_amount := 500, booking_date := "2024-01-01",
    status := "active", cancelled_date := none }

/-- A second active booking for the same phone whose identifier contains
cxB1's identifier as a substring. -/
def cxB2 : Booking :=
  { cxB1 with booking_id := "BK11", to_district := "Sylhet",
              travel_date := "2024-02-02" }

/-- A store on which the "appears exactly once" part of the disambiguation
claim fails. -/
def cxStore : Store := [cxB1, cxB2]

/-- C6 counterexample: with two active bookings for the phone whose
identifiers are "BK1" and "BK11" (identifiers the store accepts — nothing
forbids one identifier, or a field such as `travel_date`, from containing
another identifier), the disambiguation reply contains the identifier "BK1"
twice, so not every identifier appears exactly once. -/
theorem disambiguation_reply_id_twice :
    (query_smart { initSession with awaiting_phone_for_cancel := true }
        cxStore "01711000000" none "t" "a").session.pending_bookings.length = 2 ∧
    (query_smart { initSession with awaiting_phone_for_cancel := true }
        cxStore "01711000000" none "t" "a").session.awaiting_booking_id = true ∧
    cxB1 ∈ (query_smart { initSession with awaiting_phone_for_cancel := true }
        cxStore "01711000000" none "t" "a").session.pending_bookings ∧
    countOccs cxB1.booking_id.data
      (query_smart { initSession with awaiting_phone_for_cancel := true }
        cxStore "01711000000" none "t" "a").message.data = 2 ∧
    ¬(∀ b ∈ (query_smart { initSession with awaiting_phone_for_cancel := true }
        cxStore "01711000000" none "t" "a").session.pending_bookings,
      countOccs b.booking_id.data
        (query_smart { initSession with awaiting_phone_for_cancel := true }
          cxStore "01711000000" none "t" "a").message.data = 1) := by
  set_option maxRecDepth 10000 in decide

/-- C6 (amended): for every phone whose store lookup yields more than one
active booking, cancel-resolution — from the AWAITING_PHONE continuation or
from the keyword trigger — sets `pending_bookings` to exactly the list of
those active bookings (hence length N), sets `awaiting_booking_id`, and
produces a reply in which every one of the N identifiers occurs at least
once ("exactly once" fails when one identifier occurs inside another
enumerated entry, see the counterexample). -/
theorem multiple_active_bookings_disambiguation (sess : Session) (store : Store)
    (q : String) (ph : Option String) (now ans : String) :
    (sess.awaiting_phone_for_cancel = true →
      ∀ b1 b2 rest, activeFor store (stripPlus88 (pyStrip q)) = b1 :: b2 :: rest →
        (query_smart sess store q ph now ans).session.pending_bookings = b1 :: b2 :: rest ∧
        (query_smart sess store q ph now ans).session.awaiting_booking_id = true ∧
        (∀ b ∈ b1 :: b2 :: rest,
          1 ≤ countOccs b.booking_id.data (query_smart sess store q ph now ans).message.data)) ∧
    (sess.awaiting_phone_for_cancel = false → sess.awaiting_booking_id = false →
      (containsSubstr (pyLower (pyStrip q)) "cancel"
        || containsSubstr (pyLower (pyStrip q)) "cancellation") = true →
      pyStrip (orPhone ph sess.phone) ≠ "" →
      ∀ b1 b2 rest,
        activeFor store (stripPlus88 (pyStrip (orPhone ph sess.phone))) = b1 :: b2 :: rest →
        (query_smart sess store q ph now ans).session.pending_bookings = b1 :: b2 :: rest ∧
        (query_smart sess store q ph now ans).session.awaiting_booking_id = true ∧
        (∀ b ∈ b1 :: b2 :: rest,
          1 ≤ countOccs b.booking_id.data (query_smart sess store q ph now ans).message.data)) := by
  constructor
  · intro hph b1 b2 rest hact
    have heq : query_smart sess store q ph now ans =
        ⟨{ sess with phone := some (stripPlus88 (pyStrip q)),
                     awaiting_phone_for_cancel := false,
                     awaiting_booking_id := true,
                     pending_bookings := b1 :: b2 :: rest },
         store, multipleMsg (b1 :: b2 :: rest)⟩ := by
      rw [query_smart, if_pos hph, resolveCancel_multiple _ _ _ _ b1 b2 rest hact]
    refine ⟨by rw [heq], by rw [heq], ?_⟩
    intro b hbmem
    rw [heq]
    exact id_occurs_multipleMsg (b1 :: b2 :: rest) b hbmem
  · intro hph hb hk hnon b1 b2 rest hact
    have heq : query_smart sess store q ph now ans =
        ⟨{ sess with phone := some (stripPlus88 (pyStrip (orPhone ph sess.phone))),
                     awaiting_booking_id := true,
                     pending_bookings := b1 :: b2 :: rest },
         store, multipleMsg (b1 :: b2 :: rest)⟩ := by
      rw [query_smart, if_neg (by simp [hph]), if_neg (by simp [hb]), if_pos hk,
          if_neg hnon, resolveCancel_multiple _ _ _ _ b1 b2 rest hact]
    refine ⟨by rw [heq], by rw [heq], ?_⟩
    intro b hbmem
    rw [heq]
    exact id_occurs_multipleMsg (b1 :: b2 :: rest) b hbmem

theorem multiple_active_bookings_disambiguation_witness :
    (query_smart initSession wStore "cancel" (some "01711000000") "t" "a").session.pending_bookings =
      wB2 :: wB1 :: [] ∧
    (query_smart initSession wStore "cancel" (some "01711000000") "t" "a").session.awaiting_booking_id = true ∧
    (∀ b ∈ wB2 :: wB1 :: [],
      1 ≤ countOccs b.booking_id.data
        (query_smart initSession wStore "cancel" (some "01711000000") "t" "a").message.data) :=
  (multiple_active_bookings_disambiguation initSession wStore "cancel"
      (some "01711000000") "t" "a").2
    rfl rfl (by decide) (by decide) wB2 wB1 [] (by decide)

/-- A store with a single active booking for phone 01711000000. -/
def w7Store : Store := [wB1]

/-- C7: for a phone with exactly one active booking, cancel-resolution —
from either entry path, in any reachable session — applies the store
cancellation to that booking (its record reappears with status `cancelled`
and the cancellation timestamp), confirms naming its identifier, and leaves
the session in IDLE with `pending_bookings` empty. -/
theorem single_active_booking_cancelled (sess : Session) (store : Store)
    (q : String) (ph : Option String) (now ans : String) (b : Booking)
    (hreach : ReachableSession sess) :
    (sess.awaiting_phone_for_cancel = true →
      activeFor store (stripPlus88 (pyStrip q)) = [b] →
        query_smart sess store q ph now ans =
          ⟨{ sess with phone := some (stripPlus88 (pyStrip q)),
                       awaiting_phone_for_cancel := false },
           (cancel_booking store b.booking_id now).1, successMsg b.booking_id⟩ ∧
        { b with status := "cancelled", cancelled_date := some now } ∈
          (query_smart sess store q ph now ans).store ∧
        (query_smart sess store q ph now ans).session.pending_bookings = [] ∧
        (query_smart sess store q ph now ans).session.awaiting_booking_id = false ∧
        (query_smart sess store q ph now ans).session.awaiting_phone_for_cancel = false) ∧
    (sess.awaiting_phone_for_cancel = false → sess.awaiting_booking_id = false →
      (containsSubstr (pyLower (pyStrip q)) "cancel"
        || containsSubstr (pyLower (pyStrip q)) "cancellation") = true →
      pyStrip (orPhone ph sess.phone) ≠ "" →
      activeFor store (stripPlus88 (pyStrip (orPhone ph sess.phone))) = [b] →
        query_smart sess store q ph now ans =
          ⟨{ sess with phone := some (stripPlus88 (pyStrip (orPhone ph sess.phone))) },
           (cancel_booking store b.booking_id now).1, successMsg b.booking_id⟩ ∧
        { b with status := "cancelled", cancelled_date := some now } ∈
          (query_smart sess store q ph now ans).store ∧
        (query_smart sess store q ph now ans).session.pending_bookings = [] ∧
        (query_smart sess store q ph now ans).session.awaiting_booking_id = false ∧
        (query_smart sess store q ph now ans).session.awaiting_phone_for_cancel = false) := by
  obtain ⟨hmux, hiff, _, _⟩ := sessionInv_reachable sess hreach
  constructor
  · intro hph hact
    have hb : sess.awaiting_booking_id = false := by
      rcases hmux with h1 | h1
      · exact h1
      · rw [h1] at hph; exact absurd hph (by simp)
    have hp : sess.pending_bookings = [] := by
      by_contra hne
      rw [hiff.mp hne] at hb; exact absurd hb (by simp)
    have heq : query_smart sess store q ph now ans =
        ⟨{ sess with phone := some (stripPlus88 (pyStrip q)),
                     awaiting_phone_for_cancel := false },
         (cancel_booking store b.booking_id now).1, successMsg b.booking_id⟩ := by
      rw [query_smart, if_pos hph, resolveCancel_single _ _ _ _ b hact]
    have hbmem : b ∈ store :=
      activeFor_mem_store store _ b (by rw [hact]; exact List.mem_singleton.mpr rfl)
    have hbact : b.status = "active" :=
      activeFor_status store _ b (by rw [hact]; exact List.mem_singleton.mpr rfl)
    refine ⟨heq, ?_, by rw [heq]; exact hp, by rw [heq]; exact hb, by rw [heq]⟩
    rw [heq]
    exact List.mem_map.mpr ⟨b, hbmem, cancelRow_match _ _ b rfl hbact⟩
  · intro hph hb hk hnon hact
    have hp : sess.pending_bookings = [] := by
      by_contra hne
      rw [hiff.mp hne] at hb; exact absurd hb (by simp)
    have heq : query_smart sess store q ph now ans =
        ⟨{ sess with phone := some (stripPlus88 (pyStrip (orPhone ph sess.phone))) },
         (cancel_booking store b.booking_id now).1, successMsg b.booking_id⟩ := by
      rw [query_smart, if_neg (by simp [hph]), if_neg (by simp [hb]), if_pos hk,
          if_neg hnon, resolveCancel_single _ _ _ _ b hact]
    have hbmem : b ∈ store :=
      activeFor_mem_store store _ b (by rw [hact]; exact List.mem_singleton.mpr rfl)
    have hbact : b.status = "active" :=
      activeFor_status store _ b (by rw [hact]; exact List.mem_singleton.mpr rfl)
    refine ⟨heq, ?_, by rw [heq]; exact hp, by rw [heq]; exact hb, by rw [heq]; exact hph⟩
    rw [heq]
    exact List.mem_map.mpr ⟨b, hbmem, cancelRow_match _ _ b rfl hbact⟩

theorem single_active_booking_cancelled_witness :
    query_smart initSession w7Store "cancel" (some "01711000000") "t" "a" =
      ⟨{ initSession with
          phone := some (stripPlus88 (pyStrip (orPhone (some "01711000000") initSession.phone))) },
       (cancel_booking w7Store wB1.booking_id "t").1, successMsg wB1.booking_id⟩ ∧
    { wB1 with status := "cancelled", cancelled_date := some "t" } ∈
      (query_smart initSession w7Store "cancel" (some "01711000000") "t" "a").store ∧
    (query_smart initSession w7Store "cancel" (some "01711000000") "t" "a").session.pending_bookings = [] ∧
    (query_smart initSession w7Store "cancel" (some "01711000000") "t" "a").session.awaiting_booking_id = false ∧
    (query_smart initSession w7Store "cancel" (some "01711000000") "t" "a").session.awaiting_phone_for_cancel = false :=
  (single_active_booking_cancelled initSession w7Store "cancel" (some "01711000000")
      "t" "a" wB1 ReachableSession.init).2
    rfl rfl (by decide) (by decide) (by decide)

end BusBooking
